import Mathlib

/-!
Shallow embedding of `gemini_torch/utils.py` (class `ImgToTransformer` and
the module-level example code), together with theorems settling the spec
claims about it.

Machine reals are irrelevant here: as shown below, `ImgToTransformer.forward`
raises a Python exception on every input before any tensor arithmetic is
performed, so the embedding tracks tensor shapes (`List Nat`) and carries
parameter values abstractly as rationals that are never read.
-/

namespace GeminiTorch

/-- Constructor arguments of `ImgToTransformer.__init__`
(`utils.py` lines 42-59): `patches`, `patch_size`, `transformer_dim`,
`img_channels`, `seq_len`, `reduced_dim`. -/
structure Config where
  patches : Nat
  patch_size : Nat
  transformer_dim : Nat
  img_channels : Nat
  seq_len : Nat
  reduced_dim : Nat
deriving DecidableEq, Repr

/-- Largest `k ≤ bound` with `k * k ≤ n` (and `0` when there is none):
an executable floor square root, structurally recursive so that the kernel
can evaluate it on concrete inputs. -/
def isqrtBelow (n : Nat) : Nat → Nat
  | 0 => 0
  | k + 1 => if (k + 1) * (k + 1) ≤ n then k + 1 else isqrtBelow n k

/-- `self.num_patches_side = int(patches ** 0.5)` (`utils.py` line 62):
the floor of the square root of `patches` (see `num_patches_side_eq_sqrt`). -/
def num_patches_side (cfg : Config) : Nat :=
  isqrtBelow cfg.patches cfg.patches

theorem isqrtBelow_eq_sqrt (n k : Nat) (hk : Nat.sqrt n ≤ k) :
    isqrtBelow n k = Nat.sqrt n := by
  induction k with
  | zero => simpa [isqrtBelow] using (Nat.le_zero.mp hk).symm
  | succ k ih =>
    rw [isqrtBelow]
    split
    · exact le_antisymm (Nat.le_sqrt.mpr (by assumption)) hk
    · have hlt : Nat.sqrt n < k + 1 := Nat.sqrt_lt.mpr (by omega)
      exact ih (by omega)

/-- Sanity check: the executable definition computes the floor square root. -/
theorem num_patches_side_eq_sqrt (cfg : Config) :
    num_patches_side cfg = Nat.sqrt cfg.patches :=
  isqrtBelow_eq_sqrt cfg.patches cfg.patches (Nat.sqrt_le_self cfg.patches)

/-- Python exceptions that statements of `ImgToTransformer.forward` can raise.
`unpackMismatch expected got` is the `ValueError` raised by tuple unpacking
when the number of names differs from the number of values;
`zeroDivisionError` is raised by `%` with a zero right operand;
`assertionError msg` is a failed `assert`; `unfoldMissingStep` is the
`TypeError` raised by `Tensor.unfold` called without its required `step`
argument (`utils.py` lines 94-97). -/
inductive PyError where
  | unpackMismatch (expected got : Nat)
  | zeroDivisionError
  | assertionError (msg : String)
  | unfoldMissingStep
deriving DecidableEq, Repr

/-- A torch tensor, reduced to what `forward` can observe before it raises:
its shape, plus the (never-read) element data. -/
structure Tensor where
  shape : List Nat
  data : List ℚ
deriving DecidableEq, Repr

instance : DecidableEq (Except PyError Tensor) := fun a b =>
  match a, b with
  | Except.ok x, Except.ok y =>
    if h : x = y then isTrue (by rw [h]) else isFalse (by simp [h])
  | Except.error e, Except.error f =>
    if h : e = f then isTrue (by rw [h]) else isFalse (by simp [h])
  | Except.ok _, Except.error _ => isFalse (by simp)
  | Except.error _, Except.ok _ => isFalse (by simp)

instance : DecidableEq (Except PyError (List Nat)) := fun a b =>
  match a, b with
  | Except.ok x, Except.ok y =>
    if h : x = y then isTrue (by rw [h]) else isFalse (by simp [h])
  | Except.error e, Except.error f =>
    if h : e = f then isTrue (by rw [h]) else isFalse (by simp [h])
  | Except.ok _, Except.error _ => isFalse (by simp)
  | Except.error _, Except.ok _ => isFalse (by simp)

/-- The learnable parameters allocated by `ImgToTransformer.__init__`
(`utils.py` lines 64-83): weight and bias of the four `nn.Linear` layers
(`patch_embedding`, `dim_reduction`, `token_mixer`, `seq_expansion`),
the affine weight and bias of `nn.BatchNorm1d(patches)` (`self.norm`),
and the `nn.Parameter` tensor `self.positional_encoding`.
Values are carried abstractly; `forward` raises before reading any of them. -/
structure Params where
  patchEmbeddingW : List (List ℚ)
  patchEmbeddingB : List ℚ
  dimReductionW : List (List ℚ)
  dimReductionB : List ℚ
  normW : List ℚ
  normB : List ℚ
  positionalEncoding : List (List (List ℚ))
  tokenMixerW : List (List ℚ)
  tokenMixerB : List ℚ
  seqExpansionW : List (List ℚ)
  seqExpansionB : List ℚ
deriving DecidableEq, Repr

/-- The message of the `assert` at `utils.py` lines 89-91 (the f-string body
interpolates nothing; the typo is in the source). -/
def imgAssertMsg : String :=
  "Image dimensions must be divisivle by the square root of patches"

/-- `ImgToTransformer.forward` (`utils.py` lines 85-120), embedded faithfully:

* line 86 `batch, channels, height, width, height = x.shape` unpacks the
  shape into five names, so any shape of length other than five raises
  `ValueError` at once; on a five-element shape the name `height` is bound
  twice and the second binding (`x.shape[4]`) wins, while `width` is
  `x.shape[3]`;
* lines 89-91 assert `height % self.num_patches_side == 0 and
  width % self.num_patches_side == 0`; when `num_patches_side` is zero the
  `%` itself raises `ZeroDivisionError`, otherwise a failed condition raises
  `AssertionError` with `imgAssertMsg`;
* lines 94-97 call `x.unfold(2, self.patch_size,)` without the required
  third `step` argument, which raises `TypeError` — so no statement after
  line 97 (the reshapes, `patch_embedding`, `dim_reduction`, `norm`,
  `token_mixer`, `seq_expansion`) is ever reached, and no branch returns
  normally. The parameters `_p` are never read before a raise. -/
def forward (cfg : Config) (_p : Params) (x : Tensor) : Except PyError Tensor :=
  match x.shape with
  | [_batch, _channels, _height0, width, height] =>
    if num_patches_side cfg = 0 then
      Except.error PyError.zeroDivisionError
    else if height % num_patches_side cfg = 0 ∧ width % num_patches_side cfg = 0 then
      Except.error PyError.unfoldMissingStep
    else
      Except.error (PyError.assertionError imgAssertMsg)
  | s => Except.error (PyError.unpackMismatch 5 s.length)

/-- Equation of `forward` on a rank-5 shape (the only shape length that
passes the unpacking at line 86). -/
theorem forward_rank5 (cfg : Config) (p : Params) (b c h0 w h : Nat) (d : List ℚ) :
    forward cfg p ⟨[b, c, h0, w, h], d⟩ =
      if num_patches_side cfg = 0 then
        Except.error PyError.zeroDivisionError
      else if h % num_patches_side cfg = 0 ∧ w % num_patches_side cfg = 0 then
        Except.error PyError.unfoldMissingStep
      else
        Except.error (PyError.assertionError imgAssertMsg) :=
  rfl

/-- Equation of `forward` on a rank-4 shape: the unpacking `ValueError`. -/
theorem forward_rank4 (cfg : Config) (p : Params) (b c h w : Nat) (d : List ℚ) :
    forward cfg p ⟨[b, c, h, w], d⟩ =
      Except.error (PyError.unpackMismatch 5 4) :=
  rfl

/-- The forward contract as the spec words it (a second definition, written
from the spec for comparison with `forward`, which is written from the
source): on a rank-4 input whose height and width are divisible by the
square root of the patch count, return a tensor of shape
`(batch, seq_len, reduced_dim)`; on a divisibility violation raise the
shape-validation `AssertionError`. -/
def specForward (cfg : Config) (shape : List Nat) : Except PyError (List Nat) :=
  match shape with
  | [batch, _channels, height, width] =>
    if height % num_patches_side cfg = 0 ∧ width % num_patches_side cfg = 0 then
      Except.ok [batch, cfg.seq_len, cfg.reduced_dim]
    else
      Except.error (PyError.assertionError imgAssertMsg)
  | s => Except.error (PyError.unpackMismatch 4 s.length)

/-- Whether a `forward` outcome is a failed `assert` (the spec's
"shape-validation error"). -/
def isAssertionError : Except PyError Tensor → Bool
  | Except.error (PyError.assertionError _) => true
  | _ => false

/-- The configuration of the class docstring example
(`utils.py` lines 28-35). -/
def cfg16_128 : Config :=
  ⟨16, 16, 512, 3, 128, 128⟩

/-- The configuration built by the module-level example code
(`utils.py` lines 124-131): `seq_len = 50000`, `reduced_dim = 256`. -/
def exampleCfg : Config :=
  ⟨16, 16, 512, 3, 50000, 256⟩

/-- A concrete parameter record (all-empty); `forward` never reads it. -/
def anyParams : Params :=
  ⟨[], [], [], [], [], [], [], [], [], [], []⟩

/-- `forward` never returns normally: every branch raises. -/
theorem forward_isOk_eq_false (cfg : Config) (p : Params) (x : Tensor) :
    (forward cfg p x).isOk = false := by
  rcases x with ⟨s, d⟩
  rcases s with _ | ⟨a, s⟩; · rfl
  rcases s with _ | ⟨b, s⟩; · rfl
  rcases s with _ | ⟨c, s⟩; · rfl
  rcases s with _ | ⟨w, s⟩; · rfl
  rcases s with _ | ⟨h, s⟩; · rfl
  rcases s with _ | ⟨e, s⟩
  · rw [forward_rank5]
    split_ifs <;> rfl
  · rfl

/-- Learnable element count of `nn.Linear(inF, outF)`: a weight matrix of
`outF × inF` entries plus a bias vector of `outF` entries. -/
def linearParamCount (inF outF : Nat) : Nat :=
  outF * inF + outF

/-- `patch_size * patch_size * img_channels`, the input width of
`self.patch_embedding` (`utils.py` lines 65-67). -/
def patchPixels (cfg : Config) : Nat :=
  cfg.patch_size * cfg.patch_size * cfg.img_channels

/-- Total learnable parameter elements allocated by
`ImgToTransformer.__init__` (`utils.py` lines 64-83), in source order:
`self.patch_embedding = nn.Linear(patch_size * patch_size * img_channels,
transformer_dim)`; `self.dim_reduction = nn.Linear(transformer_dim,
reduced_dim)`; `self.norm = nn.BatchNorm1d(patches)` whose default
`affine=True` allocates a learnable weight and bias of `patches` elements
each (its running statistics are buffers, not learnable parameters);
`self.positional_encoding = nn.Parameter(torch.zeros(1, patches,
reduced_dim))`; `self.token_mixer = nn.Linear(patches * reduced_dim,
patches * reduced_dim)`; `self.seq_expansion = nn.Linear(patches *
reduced_dim, seq_len * reduced_dim)`. `nn.ReLU` has no parameters. -/
def totalLearnableParams (cfg : Config) : Nat :=
  linearParamCount (patchPixels cfg) cfg.transformer_dim
    + linearParamCount cfg.transformer_dim cfg.reduced_dim
    + (cfg.patches + cfg.patches)
    + 1 * cfg.patches * cfg.reduced_dim
    + linearParamCount (cfg.patches * cfg.reduced_dim) (cfg.patches * cfg.reduced_dim)
    + linearParamCount (cfg.patches * cfg.reduced_dim) (cfg.seq_len * cfg.reduced_dim)

/-- The parameter-count formula as the spec words it (a second definition,
written from the spec for comparison with `totalLearnableParams`, which is
written from the source): the sum over the module's linear layers of
`(in_features + 1) × out_features`, plus the element count of the
positional-encoding tensor — and nothing else. -/
def specClaimedParams (cfg : Config) : Nat :=
  (patchPixels cfg + 1) * cfg.transformer_dim
    + (cfg.transformer_dim + 1) * cfg.reduced_dim
    + (cfg.patches * cfg.reduced_dim + 1) * (cfg.patches * cfg.reduced_dim)
    + (cfg.patches * cfg.reduced_dim + 1) * (cfg.seq_len * cfg.reduced_dim)
    + 1 * cfg.patches * cfg.reduced_dim

/-- Whether the module is in training or evaluation mode (`nn.Module.train`
/ `nn.Module.eval`); it only influences `nn.BatchNorm1d`, which `forward`
never reaches. -/
inductive Mode where
  | train
  | eval
deriving DecidableEq, Repr

/-- The running statistics buffers of `nn.BatchNorm1d(patches)`
(`self.norm`): `running_mean`, `running_var` and `num_batches_tracked`.
They are the only mutable state a forward call could update (in training
mode); they are buffers, not learnable parameters. -/
structure NormState where
  running_mean : List ℚ
  running_var : List ℚ
  num_batches_tracked : Nat
deriving DecidableEq, Repr

/-- One call of the module on input `x`, with the batch-norm buffers passed
as explicit state: since `forward` raises at line 86 before `self.norm`
(line 108) executes, the buffers are returned unchanged in both modes and
the outcome is `forward`'s outcome. -/
def forwardCall (cfg : Config) (p : Params) (_m : Mode) (st : NormState)
    (x : Tensor) : Except PyError Tensor × NormState :=
  (forward cfg p x, st)

/-- The module-level example code (`utils.py` lines 124-138), executed as a
side effect of importing the file: it constructs
`ImgToTransformer(16, 16, 512, 3, 50000, 256)` — whose freshly initialized
parameters `initParams` and dummy input data `dummyData` come from the
runtime's random initialization — and immediately runs
`model(torch.randn(1, 3, 64, 64))`. Importing therefore performs the
forward computation, and the import fails if that call raises. -/
def importModule (initParams : Params) (dummyData : List ℚ) :
    Except PyError Tensor :=
  forward exampleCfg initParams ⟨[1, 3, 64, 64], dummyData⟩

/-- A parameter record that differs from `anyParams` only in the
positional-encoding tensor. -/
def posParamsA : Params :=
  ⟨[], [], [], [], [], [], [[[0]]], [], [], [], []⟩

/-- Like `posParamsA` but with a different positional-encoding value. -/
def posParamsB : Params :=
  ⟨[], [], [], [], [], [], [[[1]]], [], [], [], []⟩

/-- Claim C1 (code bug): the spec contract — formalised by `specForward` —
says a rank-4 input with height equal to width, both divisible by the
square root of the configured patch count, yields an output of shape
`(batch, seq_len, reduced_dim)`; but the source `forward` raises the
line-86 unpacking `ValueError` on every such input and never returns. -/
theorem c1_valid_input_spec_ok_but_code_raises (cfg : Config) (p : Params)
    (d : List ℚ) (b c s : Nat) (hdiv : s % num_patches_side cfg = 0) :
    specForward cfg [b, c, s, s] = Except.ok [b, cfg.seq_len, cfg.reduced_dim] ∧
    forward cfg p ⟨[b, c, s, s], d⟩ = Except.error (PyError.unpackMismatch 5 4) := by
  refine ⟨?_, forward_rank4 cfg p b c s s d⟩
  simp [specForward, hdiv]

/-- Witness for C1 at the docstring scenario: config `(16, 16, 512, 3, 128,
128)`, input shape `(1, 3, 256, 256)`. -/
theorem c1_witness :
    256 % num_patches_side cfg16_128 = 0 ∧
    (specForward cfg16_128 [1, 3, 256, 256] = Except.ok [1, 128, 128] ∧
      forward cfg16_128 anyParams ⟨[1, 3, 256, 256], []⟩ =
        Except.error (PyError.unpackMismatch 5 4)) :=
  ⟨by decide,
    c1_valid_input_spec_ok_but_code_raises cfg16_128 anyParams [] 1 3 256 (by decide)⟩

/-- Claim C2 (confirmed): on every rank-4 input — whether or not the
divisibility precondition holds — `forward` raises the unpacking
`ValueError` of line 86 (`expected 5, got 4`), not the `AssertionError`
of the divisibility check nor the `TypeError` of the patch-unfolding call,
so the error precedes the assertion, the patch extraction and every linear
projection; and `forward` never returns normally on any input. -/
theorem c2_rank4_unpack_error_and_never_returns :
    (∀ (cfg : Config) (p : Params) (x : Tensor), x.shape.length = 4 →
      forward cfg p x = Except.error (PyError.unpackMismatch 5 4)) ∧
    (∀ (cfg : Config) (p : Params) (x : Tensor), (forward cfg p x).isOk = false) := by
  constructor
  · intro cfg p x hx
    rcases x with ⟨s, d⟩
    rcases s with _ | ⟨a, s⟩
    · exact absurd hx (by simp)
    rcases s with _ | ⟨b, s⟩
    · exact absurd hx (by simp)
    rcases s with _ | ⟨c, s⟩
    · exact absurd hx (by simp)
    rcases s with _ | ⟨w, s⟩
    · exact absurd hx (by simp)
    rcases s with _ | ⟨h, s⟩
    · exact forward_rank4 cfg p a b c w d
    · exact absurd hx (by simp)
  · exact forward_isOk_eq_false

/-- Witness for C2 at input shape `(1, 3, 256, 256)` under the module-level
example configuration. -/
theorem c2_witness :
    (Tensor.mk [1, 3, 256, 256] []).shape.length = 4 ∧
    forward exampleCfg anyParams ⟨[1, 3, 256, 256], []⟩ =
      Except.error (PyError.unpackMismatch 5 4) :=
  ⟨rfl, c2_rank4_unpack_error_and_never_returns.1 exampleCfg anyParams
    ⟨[1, 3, 256, 256], []⟩ rfl⟩

/-- Claim C3 counterexample: with patch count 16 and input shape
`(1, 3, 65, 65)` — height 65 not divisible by `sqrt 16 = 4` — `forward`
raises the unpacking `ValueError` of line 86, not the shape-validation
`AssertionError`: the assert never executes on a rank-4 input. -/
theorem c3_counterexample :
    forward cfg16_128 anyParams ⟨[1, 3, 65, 65], []⟩ =
      Except.error (PyError.unpackMismatch 5 4) ∧
    isAssertionError (forward cfg16_128 anyParams ⟨[1, 3, 65, 65], []⟩) = false := by
  decide

/-- Claim C3 amended: a rank-4 input with non-divisible height or width
raises the unpacking `ValueError` before the divisibility check; only a
rank-5 input with `shape[4]` or `shape[3]` not divisible by the square root
of the patch count (and that square root positive) reaches the
shape-validation `AssertionError`, whose message states that the image
dimensions must be divisible by the square root of patches but names no
offending dimension. -/
theorem c3_amended (cfg : Config) (p : Params) (d : List ℚ) (b c h w : Nat)
    (hdiv : ¬(h % num_patches_side cfg = 0 ∧ w % num_patches_side cfg = 0)) :
    forward cfg p ⟨[b, c, h, w], d⟩ = Except.error (PyError.unpackMismatch 5 4) ∧
    ∀ (b5 c5 h0 : Nat), 0 < num_patches_side cfg →
      forward cfg p ⟨[b5, c5, h0, w, h], d⟩ =
        Except.error (PyError.assertionError imgAssertMsg) := by
  refine ⟨forward_rank4 cfg p b c h w d, ?_⟩
  intro b5 c5 h0 hnps
  rw [forward_rank5, if_neg (by omega), if_neg hdiv]

/-- Witness for C3 (amended) with patch count 16 and the non-divisible
dimension 65, at rank-4 input `(1, 3, 65, 65)` and rank-5 input
`(1, 3, 64, 65, 65)`. -/
theorem c3_witness :
    ¬(65 % num_patches_side cfg16_128 = 0 ∧ 65 % num_patches_side cfg16_128 = 0) ∧
    0 < num_patches_side cfg16_128 ∧
    forward cfg16_128 anyParams ⟨[1, 3, 65, 65], []⟩ =
      Except.error (PyError.unpackMismatch 5 4) ∧
    forward cfg16_128 anyParams ⟨[1, 3, 64, 65, 65], []⟩ =
      Except.error (PyError.assertionError imgAssertMsg) :=
  ⟨by decide, by decide,
    (c3_amended cfg16_128 anyParams [] 1 3 65 65 (by decide)).1,
    (c3_amended cfg16_128 anyParams [] 1 3 65 65 (by decide)).2 1 3 64 (by decide)⟩

/-- Claim C4 counterexample: at the (valid) docstring configuration
`(16, 16, 512, 3, 128, 128)` the module's learnable-parameter total is
38228640, while the spec's formula — linear layers plus positional
encoding and nothing else — gives 38228608: the two differ. -/
theorem c4_counterexample :
    totalLearnableParams cfg16_128 = 38228640 ∧
    specClaimedParams cfg16_128 = 38228608 ∧
    totalLearnableParams cfg16_128 ≠ specClaimedParams cfg16_128 := by
  decide

/-- Claim C4 amended: for every configuration, the total learnable
parameter count equals the spec's formula plus `2 × patches` — the affine
weight and bias of `nn.BatchNorm1d(patches)`, which the formula omits. -/
theorem c4_amended (cfg : Config) :
    totalLearnableParams cfg = specClaimedParams cfg + 2 * cfg.patches := by
  unfold totalLearnableParams specClaimedParams linearParamCount
  ring

/-- Claim C5 (confirmed): the outcome of `forward` is independent of the
positional-encoding parameter: two parameter records that agree on every
learnable tensor except `positional_encoding` give identical outcomes on
every input (the parameter is declared in `__init__` but never read in
`forward`). -/
theorem c5_forward_ignores_positional_encoding (cfg : Config) (p q : Params)
    (x : Tensor)
    (_h1 : p.patchEmbeddingW = q.patchEmbeddingW)
    (_h2 : p.patchEmbeddingB = q.patchEmbeddingB)
    (_h3 : p.dimReductionW = q.dimReductionW)
    (_h4 : p.dimReductionB = q.dimReductionB)
    (_h5 : p.normW = q.normW)
    (_h6 : p.normB = q.normB)
    (_h7 : p.tokenMixerW = q.tokenMixerW)
    (_h8 : p.tokenMixerB = q.tokenMixerB)
    (_h9 : p.seqExpansionW = q.seqExpansionW)
    (_h10 : p.seqExpansionB = q.seqExpansionB) :
    forward cfg p x = forward cfg q x :=
  rfl

/-- Witness for C5: two concrete parameter records differing only in the
positional-encoding tensor give the same outcome on input
`(1, 3, 256, 256)`. -/
theorem c5_witness :
    posParamsA.positionalEncoding ≠ posParamsB.positionalEncoding ∧
    posParamsA.patchEmbeddingW = posParamsB.patchEmbeddingW ∧
    posParamsA.patchEmbeddingB = posParamsB.patchEmbeddingB ∧
    posParamsA.dimReductionW = posParamsB.dimReductionW ∧
    posParamsA.dimReductionB = posParamsB.dimReductionB ∧
    posParamsA.normW = posParamsB.normW ∧
    posParamsA.normB = posParamsB.normB ∧
    posParamsA.tokenMixerW = posParamsB.tokenMixerW ∧
    posParamsA.tokenMixerB = posParamsB.tokenMixerB ∧
    posParamsA.seqExpansionW = posParamsB.seqExpansionW ∧
    posParamsA.seqExpansionB = posParamsB.seqExpansionB ∧
    forward cfg16_128 posParamsA ⟨[1, 3, 256, 256], []⟩ =
      forward cfg16_128 posParamsB ⟨[1, 3, 256, 256], []⟩ :=
  ⟨by decide, rfl, rfl, rfl, rfl, rfl, rfl, rfl, rfl, rfl, rfl,
    c5_forward_ignores_positional_encoding cfg16_128 posParamsA posParamsB
      ⟨[1, 3, 256, 256], []⟩ rfl rfl rfl rfl rfl rfl rfl rfl rfl rfl⟩

/-- Claim C6 (confirmed): with the module in evaluation mode, two
successive calls on the same parameters, normalization state and input
produce identical outcomes, and the call leaves the normalization
statistics unchanged. -/
theorem c6_eval_mode_deterministic (cfg : Config) (p : Params)
    (st : NormState) (x : Tensor) :
    (forwardCall cfg p Mode.eval st x).1 =
      (forwardCall cfg p Mode.eval (forwardCall cfg p Mode.eval st x).2 x).1 ∧
    (forwardCall cfg p Mode.eval st x).2 = st :=
  ⟨rfl, rfl⟩

/-- Claim C7 (code bug): the divisibility assertion is not the only error
condition: on the rank-4 input `(2, 3, 64, 64)` — which satisfies the
divisibility precondition with patch count 16 — `forward` raises the
line-86 unpacking `ValueError`, and on the rank-5 input `(1, 3, 64, 64,
64)` — which passes both the unpacking and the assertion — it raises the
`TypeError` of the `unfold` call missing its `step` argument. -/
theorem c7_divisible_inputs_still_raise :
    forward cfg16_128 anyParams ⟨[2, 3, 64, 64], []⟩ =
      Except.error (PyError.unpackMismatch 5 4) ∧
    forward cfg16_128 anyParams ⟨[1, 3, 64, 64, 64], []⟩ =
      Except.error PyError.unfoldMissingStep := by
  decide

/-- Claim C8 (code bug): at the docstring configuration `(16, 16, 512, 3,
128, 128)` on input `(1, 3, 256, 256)` the spec contract yields shape
`(1, 128, 128)`, but the source `forward` raises the line-86 unpacking
`ValueError` instead of returning. -/
theorem c8_docstring_scenario_raises :
    specForward cfg16_128 [1, 3, 256, 256] = Except.ok [1, 128, 128] ∧
    forward cfg16_128 anyParams ⟨[1, 3, 256, 256], []⟩ =
      Except.error (PyError.unpackMismatch 5 4) := by
  decide

/-- Claim C9 (code bug): at the module-level example configuration
`(16, 16, 512, 3, 50000, 256)` on input `(1, 3, 64, 64)` the spec contract
yields shape `(1, 50000, 256)`, but the source `forward` raises the
line-86 unpacking `ValueError` instead of returning. -/
theorem c9_example_scenario_raises :
    specForward exampleCfg [1, 3, 64, 64] = Except.ok [1, 50000, 256] ∧
    forward exampleCfg anyParams ⟨[1, 3, 64, 64], []⟩ =
      Except.error (PyError.unpackMismatch 5 4) := by
  decide

/-- Claim C10 (confirmed): loading the file executes the module-level
example code: the outcome of the load is exactly the forward call of the
`seq_len = 50000` model on the dummy `(1, 3, 64, 64)` input, and loading
fails because that forward call raises. -/
theorem c10_import_runs_forward_and_fails (initParams : Params)
    (dummyData : List ℚ) :
    importModule initParams dummyData =
      forward exampleCfg initParams ⟨[1, 3, 64, 64], dummyData⟩ ∧
    importModule initParams dummyData =
      Except.error (PyError.unpackMismatch 5 4) :=
  ⟨rfl, forward_rank4 exampleCfg initParams 1 3 64 64 dummyData⟩

end GeminiTorch
